import Mathlib

/-
  Shallow embedding of the difpy diffusion engine (src/difpy/simulate.py and
  src/difpy/optimize.py).  Node attributes and edge weights are modelled as
  rationals; the process-wide numpy random stream is modelled as an explicit
  function from draw index to a rational in [0,1), threaded through every
  function as the current draw index.  Python exceptions are modelled with
  Except; in-place mutation of the caller's graph is modelled by returning the
  caller-visible graph alongside the result.
-/

namespace Difpy

/-- Awareness state of a node: the strings "aware" and "unaware" in the source. -/
inductive NState where
  | aware
  | unaware
deriving DecidableEq, Repr

/-- Attribute record of one node: state, receptiveness, extraversion, engagement
(the attributes read and written by simulate.py). -/
structure NodeData where
  state : NState
  receptiveness : Rat
  extraversion : Rat
  engagement : Rat
deriving DecidableEq, Repr

instance : Inhabited NodeData := ⟨⟨NState.unaware, 0, 0, 0⟩⟩

/-- A networkx graph: nodes in iteration order with their attribute dicts, and
the undirected weighted edge list. -/
structure Graph where
  nodes : List (Nat × NodeData)
  edges : List (Nat × Nat × Rat)
deriving DecidableEq, Repr

/-- Attribute dict of node v (G.nodes[v] in the source). -/
def Graph.dataOf (G : Graph) (v : Nat) : NodeData :=
  (List.lookup v G.nodes).getD default

/-- G.nodes[v]['state']. -/
def Graph.stateOf (G : Graph) (v : Nat) : NState :=
  (G.dataOf v).state

/-- Membership of v in the node dict. -/
def Graph.hasNode (G : Graph) (v : Nat) : Bool :=
  G.nodes.any (fun p => p.1 == v)

/-- Map an attribute update over the node dict, keeping ids and order. -/
def updNodes (g : Nat → NodeData → NodeData) (l : List (Nat × NodeData)) :
    List (Nat × NodeData) :=
  l.map (fun p => (p.1, g p.1 p.2))

/-- G.nodes[v]['state'] = s. -/
def Graph.setState (G : Graph) (v : Nat) (s : NState) : Graph :=
  { G with nodes := updNodes (fun w d => if w == v then { d with state := s } else d) G.nodes }

/-- G.nodes[v]['engagement'] = e. -/
def Graph.setEngagement (G : Graph) (v : Nat) (e : Rat) : Graph :=
  { G with nodes := updNodes (fun w d => if w == v then { d with engagement := e } else d) G.nodes }

/-- list(G.neighbors(n)): the adjacency of n read off the edge list. -/
def Graph.neighbors (G : Graph) (n : Nat) : List Nat :=
  G.edges.filterMap (fun e => if e.1 == n then some e.2.1 else if e.2.1 == n then some e.1 else none)

/-- G[u][v]['weight'] for an undirected edge. -/
def Graph.weight (G : Graph) (u v : Nat) : Rat :=
  (((G.edges.find? (fun e => (e.1 == u && e.2.1 == v) || (e.1 == v && e.2.1 == u))).map
      (fun e => e.2.2)).getD 0)

/-- np.round(q, 6): rounding to six decimal places. -/
def round6 (q : Rat) : Rat := ((round (q * 1000000) : Int) : Rat) / 1000000

/-- The kernel argument of simulation_step: the strings "weights", "WERE",
"custom" together with the custom_kernel function argument. -/
inductive Kernel where
  | weights
  | WERE
  | custom (fn : Nat → Nat → Rat)

/-- prob_of_internalization as computed in lines 168-192 of simulate.py. -/
def prob_of_internalization (k : Kernel) (mult : Rat) (G : Graph) (n m : Nat) : Rat :=
  match k with
  | Kernel.weights => G.weight n m
  | Kernel.WERE =>
      G.weight n m * (G.dataOf m).receptiveness * (G.dataOf m).engagement
        * (G.dataOf n).extraversion * mult
  | Kernel.custom fn => fn n m

/-- Body of the inner neighbour loop of simulation_step (lines 162-210):
internalization attempt for an unaware neighbour (one uniform draw), engagement
rising for an aware neighbour (no draw). -/
def propagateToNeighbor (f : Nat → Rat) (k : Kernel) (mult enf : Rat) (n m : Nat) :
    Graph × Nat → Graph × Nat :=
  fun gi =>
    if gi.1.stateOf m = NState.unaware then
      if f gi.2 < prob_of_internalization k mult gi.1 n m then
        (gi.1.setState m NState.aware, gi.2 + 1)
      else
        (gi.1, gi.2 + 1)
    else
      (gi.1.setEngagement m (round6 ((gi.1.dataOf m).engagement * enf)), gi.2)

/-- The count of aware neighbours of n in the oblivion phase (line 131): the
comprehension over G.nodes.data() filtered by membership in G.neighbors(n). -/
def awareNeighborCount (G : Graph) (n : Nat) : Nat :=
  ((G.nodes.filter (fun p => (G.neighbors n).contains p.1)).filter
      (fun p => p.2.state == NState.aware)).length

/-- oblivion_factor of node n (line 136). -/
def oblivionFactor (G : Graph) (n : Nat) : Rat :=
  let aware : Nat := awareNeighborCount G n
  let unaware : Nat := (G.neighbors n).length - aware
  ((unaware : Rat) + 1/10000) / (((aware : Rat) + 1/10000) + ((unaware : Rat) + 1/10000))

/-- oblivion_prob of node n (line 142) when the random factor is the draw at
index i. -/
def oblivionProbOf (f : Nat → Rat) (G : Graph) (n i : Nat) : Rat :=
  oblivionFactor G n * f i

/-- Oblivion phase for one node (lines 122-149): two uniform draws for an aware
node, state flip and capped engagement reinforcement when the second draw is
below oblivion_prob. -/
def oblivionUpdate (f : Nat → Rat) (enf : Rat) (n : Nat) : Graph × Nat → Graph × Nat :=
  fun gi =>
    if gi.1.stateOf n = NState.aware then
      if f (gi.2 + 1) < oblivionProbOf f gi.1 n gi.2 then
        let G1 := gi.1.setState n NState.unaware
        (G1.setEngagement n (round6 (min 1 ((G1.dataOf n).engagement * enf))), gi.2 + 2)
      else
        (gi.1, gi.2 + 2)
    else
      gi

/-- Body of the outer node loop of simulation_step (lines 113-210): optional
oblivion phase, then dissemination from n if it is still aware. -/
def processNode (f : Nat → Rat) (k : Kernel) (mult enf : Rat) (obl : Bool) (n : Nat) :
    Graph × Nat → Graph × Nat :=
  fun gi =>
    let gi1 := if obl then oblivionUpdate f enf n gi else gi
    if gi1.1.stateOf n = NState.aware then
      (gi1.1.neighbors n).foldl (fun acc m => propagateToNeighbor f k mult enf n m acc) gi1
    else
      gi1

/-- simulation_step of simulate.py: one sweep over all nodes, mutating the graph
in place (the pos, draw and show_attr arguments have no effect on the graph and
are omitted). -/
def simulation_step (f : Nat → Rat) (k : Kernel) (mult enf : Rat) (obl : Bool)
    (G : Graph) (i : Nat) : Graph × Nat :=
  (G.nodes.map Prod.fst).foldl (fun acc n => processNode f k mult enf obl n acc) (G, i)

/-- The exceptions the engine can raise: ZeroDivisionError (division by a zero
step or trial count), UnboundLocalError (the aware-count variables are never
assigned when the graph has no nodes), ValueError (random.sample with a sample
larger than the population), KeyError (seeding a node id absent from the
graph). -/
inductive Err where
  | zeroDivision
  | unboundLocal
  | valueError
  | keyError
deriving DecidableEq, Repr

/-- Number of nodes of a snapshot whose state is "aware" (the .count('aware')
calls of lines 361 and 371). -/
def countAware (snap : List (Nat × NodeData)) : Nat :=
  (snap.filter (fun p => p.2.state == NState.aware)).length

/-- The loop of lines 336-349 of simulate.py: run the remaining number of
simulation steps, appending a deep copy of the node data after each step. -/
def simLoop (f : Nat → Rat) (k : Kernel) (mult enf : Rat) (obl : Bool) :
    Nat → Graph → Nat → Graph × Nat × List (List (Nat × NodeData))
  | 0, G, i => (G, i, [])
  | Nat.succ m, G, i =>
      let s := simulation_step f k mult enf obl G i
      let r := simLoop f k mult enf obl m s.1 s.2
      (r.1, r.2.1, s.1.nodes :: r.2.2)

/-- n-fold in-place application of simulation_step, used to state what
simulation does to the caller's graph. -/
def iterateSteps (f : Nat → Rat) (k : Kernel) (mult enf : Rat) (obl : Bool) :
    Nat → Graph → Nat → Graph × Nat
  | 0, G, i => (G, i)
  | Nat.succ m, G, i =>
      let s := simulation_step f k mult enf obl G i
      iterateSteps f k mult enf obl m s.1 s.2

/-- simulation of simulate.py: record the step-0 snapshot, apply
simulation_step n times in place, then compute avg_aware_inc_per_step.  With an
empty graph the aware-count variables are never assigned and line 380 raises
UnboundLocalError; with n = 0 line 380 raises ZeroDivisionError.  The first
component is the caller's graph after the call (the function mutates G in
place), the second the next random draw index. -/
def simulation (f : Nat → Rat) (k : Kernel) (mult enf : Rat) (obl : Bool)
    (G : Graph) (n : Nat) (i : Nat) :
    Graph × Nat × Except Err (List (List (Nat × NodeData)) × Rat) :=
  let r := simLoop f k mult enf obl n G i
  let graphList := G.nodes :: r.2.2
  if G.nodes.isEmpty then
    (r.1, r.2.1, Except.error Err.unboundLocal)
  else if n = 0 then
    (r.1, r.2.1, Except.error Err.zeroDivision)
  else
    (r.1, r.2.1, Except.ok (graphList,
      (((countAware (graphList.getLastD []) : Int) - (countAware G.nodes : Int) : Int) : Rat)
        / (n : Rat)))

/-- copy.deepcopy of line 477: an independent value copy of the graph. -/
def deepcopy (G : Graph) : Graph := G

/-- The trial loop of lines 476-492 of simulate.py: each trial deep-copies G and
runs simulation on the copy, collecting avg_aware_inc_per_step; an exception in
a trial propagates.  Returns the next draw index and the collected list. -/
def seqLoop (f : Nat → Rat) (k : Kernel) (mult enf : Rat) (obl : Bool)
    (G : Graph) (n : Nat) : Nat → Nat → Nat × Except Err (List Rat)
  | 0, i => (i, Except.ok [])
  | Nat.succ m, i =>
      let r := simulation f k mult enf obl (deepcopy G) n i
      match r.2.2 with
      | Except.error e => (r.2.1, Except.error e)
      | Except.ok p =>
          let rest := seqLoop f k mult enf obl G n m r.2.1
          match rest.2 with
          | Except.error e => (rest.1, Except.error e)
          | Except.ok l => (rest.1, Except.ok (p.2 :: l))

/-- simulation_sequence of simulate.py: run sequence_len trials on deep copies
of G and return the mean of the collected increments; sum([])/len([]) raises
ZeroDivisionError when sequence_len = 0.  The first component is the caller's
graph after the call. -/
def simulation_sequence (f : Nat → Rat) (k : Kernel) (mult enf : Rat) (obl : Bool)
    (G : Graph) (n seqLen i : Nat) : Graph × Nat × Except Err Rat :=
  let r := seqLoop f k mult enf obl G n seqLen i
  match r.2 with
  | Except.error e => (G, r.1, Except.error e)
  | Except.ok avgs =>
      if avgs.isEmpty then (G, r.1, Except.error Err.zeroDivision)
      else (G, r.1, Except.ok (avgs.sum / (avgs.length : Rat)))

/-- nx.set_node_attributes(G, s, 'state') of line 205: set every node's state. -/
def setAllStates (G : Graph) (s : NState) : Graph :=
  { G with nodes := updNodes (fun _ d => { d with state := s }) G.nodes }

/-- The seeding loop of lines 212-213 of optimize.py: set each sampled node
aware, raising KeyError on an id absent from the graph. -/
def markAware : Graph → List Nat → Graph × Option Err
  | G, [] => (G, none)
  | G, v :: vs =>
      if G.hasNode v then markAware (G.setState v NState.aware) vs
      else (G, some Err.keyError)

/-- The iteration loop of optimize_rs (lines 202-238 of optimize.py).  samp is
the oracle for random.sample at each iteration index; random.sample raises
ValueError before drawing when the requested sample exceeds the population,
but only after set_node_attributes has already reset the caller's states. -/
def rsLoop (f : Nat → Rat) (samp : Nat → List Nat) (k : Kernel) (mult enf : Rat)
    (obl : Bool) (population number_of_nodes n seqLen : Nat) :
    Nat → Nat → Graph → Nat → Rat × List Nat → Graph × Nat × Except Err (Rat × List Nat)
  | _, 0, G, i, best => (G, i, Except.ok best)
  | t, Nat.succ m, G, i, best =>
      let G1 := setAllStates G NState.unaware
      if population < number_of_nodes then
        (G1, i, Except.error Err.valueError)
      else
        let mk := markAware G1 (samp t)
        match mk.2 with
        | some e => (mk.1, i, Except.error e)
        | none =>
            let r := simulation_sequence f k mult enf obl mk.1 n seqLen i
            match r.2.2 with
            | Except.error e => (r.1, r.2.1, Except.error e)
            | Except.ok cand =>
                let best2 := if best.1 < cand then (cand, samp t) else best
                rsLoop f samp k mult enf obl population number_of_nodes n seqLen
                  (t + 1) m r.1 r.2.1 best2

/-- optimize_rs of optimize.py: random search over seed sets, with
best_solution initialised to [0, [0]] and replaced only on a strictly better
candidate score.  The first component is the caller's graph after the call
(the function mutates G in place when seeding). -/
def optimize_rs (f : Nat → Rat) (samp : Nat → List Nat) (k : Kernel) (mult enf : Rat)
    (obl : Bool) (G : Graph) (number_of_nodes number_of_iter n seqLen i : Nat) :
    Graph × Nat × Except Err (Rat × List Nat) :=
  rsLoop f samp k mult enf obl G.nodes.length number_of_nodes n seqLen
    0 number_of_iter G i (0, [0])

/-- G2 agrees with G1 on everything a step sweep never writes: the edge list
(hence every weight), the node ids in order, and every node's receptiveness and
extraversion. -/
def FramePres (G1 G2 : Graph) : Prop :=
  G2.edges = G1.edges ∧
  G2.nodes.map Prod.fst = G1.nodes.map Prod.fst ∧
  ∀ v, (G2.dataOf v).receptiveness = (G1.dataOf v).receptiveness ∧
       (G2.dataOf v).extraversion = (G1.dataOf v).extraversion

/-- Rational-valued random stream that always draws one half. -/
def fhalf : Nat → Rat := fun _ => 1/2

/-- Two nodes, node 0 aware, node 1 unaware, one edge of weight 1. -/
def Gtwo : Graph :=
  ⟨[(0, ⟨NState.aware, 1, 1, 1⟩), (1, ⟨NState.unaware, 1, 1, 1⟩)], [(0, 1, 1)]⟩

/-- The graph with no nodes and no edges. -/
def Gempty : Graph := ⟨[], []⟩

/-- One aware node and no edges. -/
def Gone : Graph := ⟨[(0, ⟨NState.aware, 1, 1, 1⟩)], []⟩

/-- Two unaware nodes with no edges. -/
def Gpair : Graph :=
  ⟨[(0, ⟨NState.unaware, 1, 1, 1⟩), (1, ⟨NState.unaware, 1, 1, 1⟩)], []⟩

/-- Two unaware nodes joined by an edge of weight 1. -/
def GpairE : Graph :=
  ⟨[(0, ⟨NState.unaware, 1, 1, 1⟩), (1, ⟨NState.unaware, 1, 1, 1⟩)], [(0, 1, 1)]⟩

/-- Sampling oracle that always returns node 1. -/
def samp1 : Nat → List Nat := fun _ => [1]

/-- Sampling oracle that always returns node 0. -/
def samp0 : Nat → List Nat := fun _ => [0]

/-! Basic lemmas about node-attribute updates. -/

theorem map_fst_updNodes (g : Nat → NodeData → NodeData) (l : List (Nat × NodeData)) :
    (updNodes g l).map Prod.fst = l.map Prod.fst := by
  induction l with
  | nil => rfl
  | cons a t ih =>
      simp only [updNodes, List.map_cons] at ih ⊢
      rw [ih]

theorem lookup_updNodes (g : Nat → NodeData → NodeData) (l : List (Nat × NodeData)) (v : Nat) :
    List.lookup v (updNodes g l) = (List.lookup v l).map (g v) := by
  induction l with
  | nil => rfl
  | cons a t ih =>
      cases hb : v == a.1 with
      | true =>
          have hv : v = a.1 := by simpa using hb
          simp [updNodes, List.lookup, hb, hv]
      | false =>
          simpa [updNodes, List.lookup, hb] using ih

theorem hasNode_iff_lookup (G : Graph) (v : Nat) :
    G.hasNode v = true ↔ (List.lookup v G.nodes).isSome = true := by
  unfold Graph.hasNode
  induction G.nodes with
  | nil => simp [List.lookup]
  | cons a t ih =>
      cases hb : v == a.1 with
      | true =>
          have hv : v = a.1 := by simpa using hb
          simp [List.lookup, hb, hv]
      | false =>
          have hne : v ≠ a.1 := by
            intro h
            rw [h] at hb
            simp at hb
          have hb2 : (a.1 == v) = false := by
            simpa using fun h => hne h.symm
          simp [List.lookup, hb, hb2, ih]

theorem dataOf_setState (G : Graph) (u : Nat) (s : NState) (w : Nat) :
    (G.setState u s).dataOf w
      = ((List.lookup w G.nodes).map
          (fun d => if w == u then { d with state := s } else d)).getD default := by
  unfold Graph.dataOf Graph.setState
  rw [lookup_updNodes]

theorem dataOf_setEngagement (G : Graph) (u : Nat) (e : Rat) (w : Nat) :
    (G.setEngagement u e).dataOf w
      = ((List.lookup w G.nodes).map
          (fun d => if w == u then { d with engagement := e } else d)).getD default := by
  unfold Graph.dataOf Graph.setEngagement
  rw [lookup_updNodes]

theorem stateOf_setEngagement (G : Graph) (u : Nat) (e : Rat) (w : Nat) :
    (G.setEngagement u e).stateOf w = G.stateOf w := by
  unfold Graph.stateOf Graph.dataOf
  rw [Graph.setEngagement, lookup_updNodes]
  cases List.lookup w G.nodes with
  | none => rfl
  | some d => cases hb : w == u <;> simp [hb]

theorem stateOf_setState_other (G : Graph) (u : Nat) (s : NState) (w : Nat) (h : w ≠ u) :
    (G.setState u s).stateOf w = G.stateOf w := by
  unfold Graph.stateOf Graph.dataOf
  rw [Graph.setState, lookup_updNodes]
  have hb : (w == u) = false := by simpa using h
  cases List.lookup w G.nodes with
  | none => rfl
  | some d => simp [hb]

theorem stateOf_setState_self (G : Graph) (u : Nat) (s : NState)
    (h : G.hasNode u = true) :
    (G.setState u s).stateOf u = s := by
  unfold Graph.stateOf Graph.dataOf
  rw [Graph.setState, lookup_updNodes]
  rcases Option.isSome_iff_exists.mp ((hasNode_iff_lookup G u).mp h) with ⟨d, hd⟩
  simp [hd]

theorem stateOf_setState_unaware_self (G : Graph) (u : Nat) :
    (G.setState u NState.unaware).stateOf u = NState.unaware := by
  unfold Graph.stateOf Graph.dataOf
  rw [Graph.setState, lookup_updNodes]
  cases List.lookup u G.nodes with
  | none => rfl
  | some d => simp

theorem stateOf_setState_aware (G : Graph) (u v : Nat)
    (h : G.stateOf v = NState.aware) :
    (G.setState u NState.aware).stateOf v = NState.aware := by
  by_cases hv : v = u
  · subst hv
    unfold Graph.stateOf Graph.dataOf at h ⊢
    rw [Graph.setState, lookup_updNodes]
    cases hl : List.lookup v G.nodes with
    | none => rw [hl] at h; exact h
    | some d => simp
  · rw [stateOf_setState_other G u NState.aware v hv]; exact h

theorem recept_setState (G : Graph) (u : Nat) (s : NState) (w : Nat) :
    ((G.setState u s).dataOf w).receptiveness = (G.dataOf w).receptiveness := by
  rw [dataOf_setState]
  unfold Graph.dataOf
  cases List.lookup w G.nodes with
  | none => rfl
  | some d => cases hb : w == u <;> simp [hb]

theorem extrav_setState (G : Graph) (u : Nat) (s : NState) (w : Nat) :
    ((G.setState u s).dataOf w).extraversion = (G.dataOf w).extraversion := by
  rw [dataOf_setState]
  unfold Graph.dataOf
  cases List.lookup w G.nodes with
  | none => rfl
  | some d => cases hb : w == u <;> simp [hb]

theorem recept_setEngagement (G : Graph) (u : Nat) (e : Rat) (w : Nat) :
    ((G.setEngagement u e).dataOf w).receptiveness = (G.dataOf w).receptiveness := by
  rw [dataOf_setEngagement]
  unfold Graph.dataOf
  cases List.lookup w G.nodes with
  | none => rfl
  | some d => cases hb : w == u <;> simp [hb]

theorem extrav_setEngagement (G : Graph) (u : Nat) (e : Rat) (w : Nat) :
    ((G.setEngagement u e).dataOf w).extraversion = (G.dataOf w).extraversion := by
  rw [dataOf_setEngagement]
  unfold Graph.dataOf
  cases List.lookup w G.nodes with
  | none => rfl
  | some d => cases hb : w == u <;> simp [hb]

theorem edges_setState (G : Graph) (u : Nat) (s : NState) :
    (G.setState u s).edges = G.edges := rfl

theorem edges_setEngagement (G : Graph) (u : Nat) (e : Rat) :
    (G.setEngagement u e).edges = G.edges := rfl

theorem ids_setState (G : Graph) (u : Nat) (s : NState) :
    (G.setState u s).nodes.map Prod.fst = G.nodes.map Prod.fst := by
  simp only [Graph.setState]
  exact map_fst_updNodes _ _

theorem ids_setEngagement (G : Graph) (u : Nat) (e : Rat) :
    (G.setEngagement u e).nodes.map Prod.fst = G.nodes.map Prod.fst := by
  simp only [Graph.setEngagement]
  exact map_fst_updNodes _ _

/-! Awareness-preservation lemmas for the step sweep. -/

theorem propagate_pres_aware (f : Nat → Rat) (k : Kernel) (mult enf : Rat) (n m v : Nat)
    (gi : Graph × Nat) (h : gi.1.stateOf v = NState.aware) :
    (propagateToNeighbor f k mult enf n m gi).1.stateOf v = NState.aware := by
  unfold propagateToNeighbor
  by_cases hm : gi.1.stateOf m = NState.unaware
  · by_cases hd : f gi.2 < prob_of_internalization k mult gi.1 n m
    · simp only [hm, if_true, hd]
      exact stateOf_setState_aware gi.1 m v h
    · simp only [hm, if_true, hd, if_false]
      exact h
  · simp only [hm, if_false]
    rw [stateOf_setEngagement]
    exact h

theorem foldProp_pres_aware (f : Nat → Rat) (k : Kernel) (mult enf : Rat) (n v : Nat) :
    ∀ (ms : List Nat) (gi : Graph × Nat), gi.1.stateOf v = NState.aware →
      ((ms.foldl (fun acc m => propagateToNeighbor f k mult enf n m acc) gi).1.stateOf v
        = NState.aware) := by
  intro ms
  induction ms with
  | nil => intro gi h; exact h
  | cons m t ih =>
      intro gi h
      exact ih _ (propagate_pres_aware f k mult enf n m v gi h)

theorem processNode_pres_aware_of_not_obl (f : Nat → Rat) (k : Kernel) (mult enf : Rat)
    (n v : Nat) (gi : Graph × Nat) (h : gi.1.stateOf v = NState.aware) :
    (processNode f k mult enf false n gi).1.stateOf v = NState.aware := by
  unfold processNode
  simp only [Bool.false_eq_true, if_false]
  by_cases hn : gi.1.stateOf n = NState.aware
  · simp only [hn, if_true]
    exact foldProp_pres_aware f k mult enf n v _ gi h
  · simp only [hn, if_false]
    exact h

theorem foldNodes_pres_aware_of_not_obl (f : Nat → Rat) (k : Kernel) (mult enf : Rat)
    (v : Nat) :
    ∀ (ids : List Nat) (gi : Graph × Nat), gi.1.stateOf v = NState.aware →
      ((ids.foldl (fun acc n => processNode f k mult enf false n acc) gi).1.stateOf v
        = NState.aware) := by
  intro ids
  induction ids with
  | nil => intro gi h; exact h
  | cons n t ih =>
      intro gi h
      exact ih _ (processNode_pres_aware_of_not_obl f k mult enf n v gi h)

theorem step_pres_aware_of_not_obl (f : Nat → Rat) (k : Kernel) (mult enf : Rat)
    (G : Graph) (i v : Nat) (h : G.stateOf v = NState.aware) :
    (simulation_step f k mult enf false G i).1.stateOf v = NState.aware := by
  unfold simulation_step
  exact foldNodes_pres_aware_of_not_obl f k mult enf v _ (G, i) h

theorem processNode_unaware_cause (f : Nat → Rat) (k : Kernel) (mult enf : Rat)
    (obl : Bool) (n v : Nat) (H : Graph) (j : Nat)
    (hv : H.stateOf v = NState.aware)
    (hu : (processNode f k mult enf obl n (H, j)).1.stateOf v = NState.unaware) :
    obl = true ∧ v = n ∧ f (j + 1) < oblivionProbOf f H n j := by
  cases obl with
  | false =>
      rw [processNode_pres_aware_of_not_obl f k mult enf n v (H, j) hv] at hu
      exact absurd hu (by simp)
  | true =>
      refine ⟨rfl, ?_⟩
      unfold processNode at hu
      simp only [if_true] at hu
      by_cases hn : H.stateOf n = NState.aware
      · by_cases ht : f (j + 1) < oblivionProbOf f H n j
        · have hO : oblivionUpdate f enf n (H, j)
              = ((H.setState n NState.unaware).setEngagement n
                  (round6 (min 1 (((H.setState n NState.unaware).dataOf n).engagement * enf))),
                 j + 2) := by
            unfold oblivionUpdate
            simp only [hn, ht, if_true]
          rw [hO] at hu
          have hnstate :
              ((H.setState n NState.unaware).setEngagement n
                  (round6 (min 1 (((H.setState n NState.unaware).dataOf n).engagement * enf)))).stateOf n
                = NState.unaware := by
            rw [stateOf_setEngagement]
            exact stateOf_setState_unaware_self H n
          simp only [hnstate, reduceCtorEq, if_false] at hu
          by_cases hvn : v = n
          · exact ⟨hvn, ht⟩
          · exfalso
            rw [stateOf_setEngagement, stateOf_setState_other H n NState.unaware v hvn, hv] at hu
            exact absurd hu (by simp)
        · have hO : oblivionUpdate f enf n (H, j) = (H, j + 2) := by
            unfold oblivionUpdate
            simp only [hn, ht, if_true, if_false]
          rw [hO] at hu
          simp only [hn, if_true] at hu
          rw [foldProp_pres_aware f k mult enf n v _ (H, j + 2) hv] at hu
          exact absurd hu (by simp)
      · have hO : oblivionUpdate f enf n (H, j) = (H, j) := by
          unfold oblivionUpdate
          simp only [hn, if_false]
        rw [hO] at hu
        simp only [hn, if_false] at hu
        rw [hv] at hu
        exact absurd hu (by simp)

/-! Frame lemmas: a step sweep only writes state and engagement. -/

theorem framePres_refl (G : Graph) : FramePres G G :=
  ⟨rfl, rfl, fun _ => ⟨rfl, rfl⟩⟩

theorem framePres_trans {G1 G2 G3 : Graph}
    (h1 : FramePres G1 G2) (h2 : FramePres G2 G3) : FramePres G1 G3 :=
  ⟨h2.1.trans h1.1, h2.2.1.trans h1.2.1,
    fun v => ⟨(h2.2.2 v).1.trans (h1.2.2 v).1, (h2.2.2 v).2.trans (h1.2.2 v).2⟩⟩

theorem framePres_setState (G : Graph) (u : Nat) (s : NState) :
    FramePres G (G.setState u s) :=
  ⟨edges_setState G u s, ids_setState G u s,
    fun v => ⟨recept_setState G u s v, extrav_setState G u s v⟩⟩

theorem framePres_setEngagement (G : Graph) (u : Nat) (e : Rat) :
    FramePres G (G.setEngagement u e) :=
  ⟨edges_setEngagement G u e, ids_setEngagement G u e,
    fun v => ⟨recept_setEngagement G u e v, extrav_setEngagement G u e v⟩⟩

theorem framePres_propagate (f : Nat → Rat) (k : Kernel) (mult enf : Rat) (n m : Nat)
    (gi : Graph × Nat) :
    FramePres gi.1 (propagateToNeighbor f k mult enf n m gi).1 := by
  unfold propagateToNeighbor
  by_cases hm : gi.1.stateOf m = NState.unaware
  · by_cases hd : f gi.2 < prob_of_internalization k mult gi.1 n m
    · simp only [hm, hd, if_true]
      exact framePres_setState gi.1 m NState.aware
    · simp only [hm, hd, if_true, if_false]
      exact framePres_refl gi.1
  · simp only [hm, if_false]
    exact framePres_setEngagement gi.1 m _

theorem framePres_foldProp (f : Nat → Rat) (k : Kernel) (mult enf : Rat) (n : Nat) :
    ∀ (ms : List Nat) (gi : Graph × Nat),
      FramePres gi.1 ((ms.foldl (fun acc m => propagateToNeighbor f k mult enf n m acc) gi).1) := by
  intro ms
  induction ms with
  | nil => intro gi; exact framePres_refl gi.1
  | cons m t ih =>
      intro gi
      exact framePres_trans (framePres_propagate f k mult enf n m gi) (ih _)

theorem framePres_oblivion (f : Nat → Rat) (enf : Rat) (n : Nat) (gi : Graph × Nat) :
    FramePres gi.1 (oblivionUpdate f enf n gi).1 := by
  unfold oblivionUpdate
  by_cases hn : gi.1.stateOf n = NState.aware
  · by_cases ht : f (gi.2 + 1) < oblivionProbOf f gi.1 n gi.2
    · simp only [hn, ht, if_true]
      exact framePres_trans (framePres_setState gi.1 n NState.unaware)
        (framePres_setEngagement _ n _)
    · simp only [hn, ht, if_true, if_false]
      exact framePres_refl gi.1
  · simp only [hn, if_false]
    exact framePres_refl gi.1

theorem framePres_processNode (f : Nat → Rat) (k : Kernel) (mult enf : Rat) (obl : Bool)
    (n : Nat) (gi : Graph × Nat) :
    FramePres gi.1 (processNode f k mult enf obl n gi).1 := by
  unfold processNode
  have h1 : FramePres gi.1 (if obl then oblivionUpdate f enf n gi else gi).1 := by
    cases obl with
    | false => exact framePres_refl gi.1
    | true => simpa using framePres_oblivion f enf n gi
  by_cases hn : (if obl then oblivionUpdate f enf n gi else gi).1.stateOf n = NState.aware
  · simp only [hn, if_true]
    exact framePres_trans h1 (framePres_foldProp f k mult enf n _ _)
  · simp only [hn, if_false]
    exact h1

theorem framePres_foldNodes (f : Nat → Rat) (k : Kernel) (mult enf : Rat) (obl : Bool) :
    ∀ (ids : List Nat) (gi : Graph × Nat),
      FramePres gi.1 ((ids.foldl (fun acc n => processNode f k mult enf obl n acc) gi).1) := by
  intro ids
  induction ids with
  | nil => intro gi; exact framePres_refl gi.1
  | cons n t ih =>
      intro gi
      exact framePres_trans (framePres_processNode f k mult enf obl n gi) (ih _)

theorem framePres_step (f : Nat → Rat) (k : Kernel) (mult enf : Rat) (obl : Bool)
    (G : Graph) (i : Nat) :
    FramePres G (simulation_step f k mult enf obl G i).1 := by
  unfold simulation_step
  exact framePres_foldNodes f k mult enf obl _ (G, i)

/-! Lemmas relating simulation's snapshot loop to iterated steps, and the trial
loop of simulation_sequence to its collected increments. -/

theorem simLoop_eq_iterate (f : Nat → Rat) (k : Kernel) (mult enf : Rat) (obl : Bool) :
    ∀ (n : Nat) (G : Graph) (i : Nat),
      (simLoop f k mult enf obl n G i).1 = (iterateSteps f k mult enf obl n G i).1 ∧
      (simLoop f k mult enf obl n G i).2.1 = (iterateSteps f k mult enf obl n G i).2 := by
  intro n
  induction n with
  | zero => intro G i; exact ⟨rfl, rfl⟩
  | succ m ih =>
      intro G i
      simp only [simLoop, iterateSteps]
      exact ih _ _

theorem simLoop_length (f : Nat → Rat) (k : Kernel) (mult enf : Rat) (obl : Bool) :
    ∀ (n : Nat) (G : Graph) (i : Nat),
      (simLoop f k mult enf obl n G i).2.2.length = n := by
  intro n
  induction n with
  | zero => intro G i; rfl
  | succ m ih =>
      intro G i
      simp only [simLoop, List.length_cons]
      rw [ih]

theorem simLoop_getD (f : Nat → Rat) (k : Kernel) (mult enf : Rat) (obl : Bool) :
    ∀ (n : Nat) (G : Graph) (i : Nat) (j : Nat), j < n →
      (simLoop f k mult enf obl n G i).2.2.getD j []
        = (iterateSteps f k mult enf obl (j + 1) G i).1.nodes := by
  intro n
  induction n with
  | zero => intro G i j hj; exact absurd hj (Nat.not_lt_zero j)
  | succ m ih =>
      intro G i j hj
      cases j with
      | zero =>
          simp only [simLoop, iterateSteps, List.getD_cons_zero]
      | succ j' =>
          simp only [simLoop, iterateSteps, List.getD_cons_succ]
          exact ih _ _ j' (Nat.lt_of_succ_lt_succ hj)

theorem simLoop_succ (f : Nat → Rat) (k : Kernel) (mult enf : Rat) (obl : Bool)
    (m : Nat) (G : Graph) (i : Nat) :
    simLoop f k mult enf obl (m + 1) G i
      = ((simLoop f k mult enf obl m (simulation_step f k mult enf obl G i).1
            (simulation_step f k mult enf obl G i).2).1,
         (simLoop f k mult enf obl m (simulation_step f k mult enf obl G i).1
            (simulation_step f k mult enf obl G i).2).2.1,
         (simulation_step f k mult enf obl G i).1.nodes ::
           (simLoop f k mult enf obl m (simulation_step f k mult enf obl G i).1
              (simulation_step f k mult enf obl G i).2).2.2) := rfl

theorem iterateSteps_succ (f : Nat → Rat) (k : Kernel) (mult enf : Rat) (obl : Bool)
    (m : Nat) (G : Graph) (i : Nat) :
    iterateSteps f k mult enf obl (m + 1) G i
      = iterateSteps f k mult enf obl m (simulation_step f k mult enf obl G i).1
          (simulation_step f k mult enf obl G i).2 := rfl

theorem simLoop_getLastD (f : Nat → Rat) (k : Kernel) (mult enf : Rat) (obl : Bool) :
    ∀ (n : Nat) (G : Graph) (i : Nat) (d : List (Nat × NodeData)), 1 ≤ n →
      (simLoop f k mult enf obl n G i).2.2.getLastD d
        = (iterateSteps f k mult enf obl n G i).1.nodes := by
  intro n
  induction n with
  | zero => intro G i d h; exact absurd h (by simp)
  | succ m ih =>
      intro G i d _
      rw [simLoop_succ]
      dsimp only
      rw [List.getLastD_cons]
      cases m with
      | zero => rfl
      | succ m2 =>
          rw [ih _ _ _ (Nat.succ_le_succ (Nat.zero_le m2))]
          rfl

theorem seqLoop_ok_length (f : Nat → Rat) (k : Kernel) (mult enf : Rat) (obl : Bool)
    (G : Graph) (n : Nat) :
    ∀ (m i i' : Nat) (l : List Rat),
      seqLoop f k mult enf obl G n m i = (i', Except.ok l) → l.length = m := by
  intro m
  induction m with
  | zero =>
      intro i i' l h
      simp only [seqLoop, Prod.mk.injEq, Except.ok.injEq] at h
      rw [← h.2]
      rfl
  | succ m' ih =>
      intro i i' l h
      simp only [seqLoop] at h
      cases hr : (simulation f k mult enf obl (deepcopy G) n i).2.2 with
      | error e => rw [hr] at h; simp at h
      | ok p =>
          rw [hr] at h
          cases hrest : (seqLoop f k mult enf obl G n m'
              (simulation f k mult enf obl (deepcopy G) n i).2.1).2 with
          | error e =>
              rw [show seqLoop f k mult enf obl G n m'
                    (simulation f k mult enf obl (deepcopy G) n i).2.1
                  = ((seqLoop f k mult enf obl G n m'
                      (simulation f k mult enf obl (deepcopy G) n i).2.1).1, Except.error e) from
                  Prod.ext rfl hrest] at h
              simp at h
          | ok l2 =>
              rw [show seqLoop f k mult enf obl G n m'
                    (simulation f k mult enf obl (deepcopy G) n i).2.1
                  = ((seqLoop f k mult enf obl G n m'
                      (simulation f k mult enf obl (deepcopy G) n i).2.1).1, Except.ok l2) from
                  Prod.ext rfl hrest] at h
              simp only [Prod.mk.injEq, Except.ok.injEq] at h
              rw [← h.2, List.length_cons]
              rw [ih _ _ _ (Prod.ext rfl hrest)]

/-- The caller-visible graph returned by simulation_sequence is the input graph:
each trial mutates only its private deep copy. -/
theorem seq_fst (f : Nat → Rat) (k : Kernel) (mult enf : Rat) (obl : Bool)
    (G : Graph) (n seqLen i : Nat) :
    (simulation_sequence f k mult enf obl G n seqLen i).1 = G := by
  unfold simulation_sequence
  dsimp only
  split
  · rfl
  · split
    · rfl
    · rfl

/-- One-trial unfolding of the trial loop. -/
theorem seqLoop_one (f : Nat → Rat) (k : Kernel) (mult enf : Rat) (obl : Bool)
    (G : Graph) (n i : Nat) :
    seqLoop f k mult enf obl G n 1 i
      = match (simulation f k mult enf obl (deepcopy G) n i).2.2 with
        | Except.error e => ((simulation f k mult enf obl (deepcopy G) n i).2.1, Except.error e)
        | Except.ok p =>
            ((simulation f k mult enf obl (deepcopy G) n i).2.1, Except.ok [p.2]) := rfl

/-! Claim theorems. -/

/-- C10: simulation_step mutates only the state and engagement attributes of
nodes: the edge list (hence the edge set and every edge weight), the node ids
in iteration order, and every node's receptiveness and extraversion values are
identical before and after the call. -/
theorem C10_step_mutates_only_state_and_engagement (f : Nat → Rat) (k : Kernel)
    (mult enf : Rat) (obl : Bool) (G : Graph) (i : Nat) :
    (simulation_step f k mult enf obl G i).1.edges = G.edges ∧
    (simulation_step f k mult enf obl G i).1.nodes.map Prod.fst = G.nodes.map Prod.fst ∧
    (∀ u v, (simulation_step f k mult enf obl G i).1.weight u v = G.weight u v) ∧
    ∀ v, ((simulation_step f k mult enf obl G i).1.dataOf v).receptiveness
            = (G.dataOf v).receptiveness ∧
         ((simulation_step f k mult enf obl G i).1.dataOf v).extraversion
            = (G.dataOf v).extraversion := by
  obtain ⟨he, hi, hd⟩ := framePres_step f k mult enf obl G i
  refine ⟨he, hi, ?_, hd⟩
  intro u v
  unfold Graph.weight
  rw [he]

/-- C9: a node that is aware at the start of simulation_step is still aware at
the end unless oblivion is enabled and its own oblivion draw triggers (second
uniform draw strictly below its oblivion probability); within the processing of
any node n, no other path sets an aware node to unaware. -/
theorem C9_aware_persists_unless_oblivion (f : Nat → Rat) (k : Kernel) (mult enf : Rat)
    (obl : Bool) (G : Graph) (i v : Nat) (n : Nat) (H : Graph) (j : Nat)
    (hv : G.stateOf v = NState.aware) (hH : H.stateOf v = NState.aware) :
    (obl = false → (simulation_step f k mult enf obl G i).1.stateOf v = NState.aware) ∧
    ((simulation_step f k mult enf obl G i).1.stateOf v = NState.unaware → obl = true) ∧
    ((processNode f k mult enf obl n (H, j)).1.stateOf v = NState.unaware →
        obl = true ∧ v = n ∧ f (j + 1) < oblivionProbOf f H n j) := by
  refine ⟨?_, ?_, ?_⟩
  · intro hobl
    subst hobl
    exact step_pres_aware_of_not_obl f k mult enf G i v hv
  · intro hu
    cases obl with
    | true => rfl
    | false =>
        rw [step_pres_aware_of_not_obl f k mult enf G i v hv] at hu
        exact absurd hu (by simp)
  · intro hu
    exact processNode_unaware_cause f k mult enf obl n v H j hH hu

/-- Witness for C9 at a concrete input. -/
theorem C9_witness :
    Gtwo.stateOf 0 = NState.aware ∧
    ((false = false →
        (simulation_step fhalf Kernel.weights 10 1 false Gtwo 0).1.stateOf 0 = NState.aware) ∧
     ((simulation_step fhalf Kernel.weights 10 1 false Gtwo 0).1.stateOf 0 = NState.unaware →
        false = true) ∧
     ((processNode fhalf Kernel.weights 10 1 false 0 (Gtwo, 0)).1.stateOf 0 = NState.unaware →
        false = true ∧ 0 = 0 ∧ fhalf 1 < oblivionProbOf fhalf Gtwo 0 0)) :=
  ⟨by decide,
   C9_aware_persists_unless_oblivion fhalf Kernel.weights 10 1 false Gtwo 0 0 0 Gtwo 0
     (by decide) (by decide)⟩

/-- C4: for a directed pair with an aware sender n and an unaware receiver m,
the WERE kernel probability is weight times receiver receptiveness times
receiver engagement times sender extraversion times the multiplier, with no
clamping; the receiver becomes aware exactly when the uniform draw is strictly
below this product, and a product above 1 always succeeds for a draw in [0,1). -/
theorem C4_WERE_kernel (f : Nat → Rat) (mult enf : Rat) (G : Graph) (n m i : Nat)
    (hn : G.stateOf n = NState.aware) (hm : G.hasNode m = true)
    (hum : G.stateOf m = NState.unaware) (h0 : 0 ≤ f i) (h1 : f i < 1) :
    prob_of_internalization Kernel.WERE mult G n m
      = G.weight n m * (G.dataOf m).receptiveness * (G.dataOf m).engagement
        * (G.dataOf n).extraversion * mult ∧
    ((propagateToNeighbor f Kernel.WERE mult enf n m (G, i)).1.stateOf m = NState.aware
      ↔ f i < prob_of_internalization Kernel.WERE mult G n m) ∧
    (1 < prob_of_internalization Kernel.WERE mult G n m →
      (propagateToNeighbor f Kernel.WERE mult enf n m (G, i)).1.stateOf m = NState.aware) := by
  have hres : ∀ (hlt : f i < prob_of_internalization Kernel.WERE mult G n m),
      (propagateToNeighbor f Kernel.WERE mult enf n m (G, i)).1.stateOf m = NState.aware := by
    intro hlt
    unfold propagateToNeighbor
    dsimp only
    rw [if_pos hum, if_pos hlt]
    exact stateOf_setState_self G m NState.aware hm
  have hresn : ∀ (hlt : ¬ f i < prob_of_internalization Kernel.WERE mult G n m),
      (propagateToNeighbor f Kernel.WERE mult enf n m (G, i)).1.stateOf m = NState.unaware := by
    intro hlt
    unfold propagateToNeighbor
    dsimp only
    rw [if_pos hum, if_neg hlt]
    exact hum
  refine ⟨rfl, ?_, ?_⟩
  · constructor
    · intro ha
      by_contra hlt
      rw [hresn hlt] at ha
      exact absurd ha (by simp)
    · exact hres
  · intro hp
    exact hres (lt_trans h1 hp)

/-- Witness for C4 at a concrete input with product 10 greater than 1. -/
theorem C4_witness :
    Gtwo.stateOf 1 = NState.unaware ∧
    (prob_of_internalization Kernel.WERE 10 Gtwo 0 1
        = Gtwo.weight 0 1 * (Gtwo.dataOf 1).receptiveness * (Gtwo.dataOf 1).engagement
          * (Gtwo.dataOf 0).extraversion * 10 ∧
     ((propagateToNeighbor fhalf Kernel.WERE 10 1 0 1 (Gtwo, 0)).1.stateOf 1 = NState.aware
        ↔ fhalf 0 < prob_of_internalization Kernel.WERE 10 Gtwo 0 1) ∧
     (1 < prob_of_internalization Kernel.WERE 10 Gtwo 0 1 →
        (propagateToNeighbor fhalf Kernel.WERE 10 1 0 1 (Gtwo, 0)).1.stateOf 1 = NState.aware)) :=
  ⟨by decide,
   C4_WERE_kernel fhalf 10 1 Gtwo 0 1 0 (by decide) (by decide) (by decide)
     (by with_unfolding_all decide) (by with_unfolding_all decide)⟩

/-- C1: simulation_sequence runs each of its sequence_len trials on its own
deep copy of G taken before any mutation of that trial, so after the call the
caller's original graph is exactly the graph it passed in, with every node's
state and trait values unchanged. -/
theorem C1_sequence_preserves_caller (f : Nat → Rat) (k : Kernel) (mult enf : Rat)
    (obl : Bool) (G : Graph) (n seqLen i : Nat) (h : 1 ≤ seqLen) :
    (simulation_sequence f k mult enf obl G n seqLen i).1 = G :=
  seq_fst f k mult enf obl G n seqLen i

/-- Witness for C1 at a concrete input. -/
theorem C1_witness :
    1 ≤ 1 ∧ (simulation_sequence fhalf Kernel.weights 10 1 false Gtwo 1 1 0).1 = Gtwo :=
  ⟨by decide, C1_sequence_preserves_caller fhalf Kernel.weights 10 1 false Gtwo 1 1 0 (by decide)⟩

/-- C2 counterexample: simulation does not operate on a private copy; on a
two-node graph with one step it flips node 1 of the caller's graph from
unaware to aware. -/
theorem C2_cex_simulation_mutates_caller :
    (simulation fhalf Kernel.weights 10 1 false Gtwo 1 0).1.stateOf 1 = NState.aware ∧
    Gtwo.stateOf 1 = NState.unaware := by
  constructor
  · with_unfolding_all decide
  · decide

/-- C2 amended: simulation operates directly on the caller's graph with no
private deep copy: the caller's graph after the call is exactly the n-fold
in-place application of simulation_step (the per-trial deep copy is taken by
simulation_sequence, not by simulation). -/
theorem C2_simulation_runs_in_place (f : Nat → Rat) (k : Kernel) (mult enf : Rat)
    (obl : Bool) (G : Graph) (n i : Nat) :
    (simulation f k mult enf obl G n i).1 = (iterateSteps f k mult enf obl n G i).1 ∧
    (simulation f k mult enf obl G n i).2.1 = (iterateSteps f k mult enf obl n G i).2 := by
  have h := simLoop_eq_iterate f k mult enf obl n G i
  constructor
  · unfold simulation
    dsimp only
    split
    · exact h.1
    · split
      · exact h.1
      · exact h.1
  · unfold simulation
    dsimp only
    split
    · exact h.2
    · split
      · exact h.2
      · exact h.2

/-- C3 counterexample: on the empty graph with horizon 1, simulation raises
an exception (the aware-count variables are never assigned) instead of
returning the n+1 snapshots and the average increment. -/
theorem C3_cex_empty_graph :
    simulation fhalf Kernel.weights 10 1 false Gempty 1 0
      = (Gempty, 0, Except.error Err.unboundLocal) := rfl

/-- C3 amended: for every graph with at least one node and horizon n of at
least 1, simulation applies simulation_step exactly n times in sequence,
returns n+1 snapshots (snapshot j being the node data after j steps), and
returns the aware count of the last snapshot minus the aware count of the
first, divided by n. -/
theorem C3_simulation_run_spec (f : Nat → Rat) (k : Kernel) (mult enf : Rat)
    (obl : Bool) (G : Graph) (n i : Nat) (hG : G.nodes ≠ []) (hn : 1 ≤ n) :
    ∃ gl,
      simulation f k mult enf obl G n i
        = ((iterateSteps f k mult enf obl n G i).1, (iterateSteps f k mult enf obl n G i).2,
            Except.ok (gl,
              (((countAware (iterateSteps f k mult enf obl n G i).1.nodes : Int)
                 - (countAware G.nodes : Int) : Int) : Rat) / (n : Rat))) ∧
      gl.length = n + 1 ∧
      ∀ j, j ≤ n → gl.getD j [] = (iterateSteps f k mult enf obl j G i).1.nodes := by
  have h := simLoop_eq_iterate f k mult enf obl n G i
  refine ⟨G.nodes :: (simLoop f k mult enf obl n G i).2.2, ?_, ?_, ?_⟩
  · unfold simulation
    dsimp only
    rw [if_neg (by simpa using hG), if_neg (by omega)]
    rw [List.getLastD_cons, simLoop_getLastD f k mult enf obl n G i G.nodes hn, h.1, h.2]
  · simp only [List.length_cons]
    rw [simLoop_length f k mult enf obl n G i]
  · intro j hj
    cases j with
    | zero => rfl
    | succ j2 =>
        simp only [List.getD_cons_succ]
        exact simLoop_getD f k mult enf obl n G i j2 (by omega)

/-- Witness for C3 at a concrete input. -/
theorem C3_witness :
    (Gtwo.nodes ≠ [] ∧ 1 ≤ 1) ∧
    (∃ gl,
      simulation fhalf Kernel.weights 10 1 false Gtwo 1 0
        = ((iterateSteps fhalf Kernel.weights 10 1 false 1 Gtwo 0).1,
           (iterateSteps fhalf Kernel.weights 10 1 false 1 Gtwo 0).2,
            Except.ok (gl,
              (((countAware (iterateSteps fhalf Kernel.weights 10 1 false 1 Gtwo 0).1.nodes : Int)
                 - (countAware Gtwo.nodes : Int) : Int) : Rat) / ((1 : Nat) : Rat))) ∧
      gl.length = 1 + 1 ∧
      ∀ j, j ≤ 1 → gl.getD j [] = (iterateSteps fhalf Kernel.weights 10 1 false j Gtwo 0).1.nodes) :=
  ⟨⟨by decide, by decide⟩,
   C3_simulation_run_spec fhalf Kernel.weights 10 1 false Gtwo 1 0 (by decide) (by decide)⟩

/-- C5: calling simulation with n = 0 or simulation_sequence with
sequence_len = 0 fails with an exception while the caller's graph and the
random stream position are exactly as before the call: no simulation step is
applied and no random draw is made before the error surfaces. -/
theorem C5_zero_config_fails_before_run (f : Nat → Rat) (k : Kernel) (mult enf : Rat)
    (obl : Bool) (G : Graph) (n i : Nat) :
    (∃ e, simulation f k mult enf obl G 0 i = (G, i, Except.error e)) ∧
    simulation_sequence f k mult enf obl G n 0 i = (G, i, Except.error Err.zeroDivision) := by
  constructor
  · by_cases hG : G.nodes.isEmpty
    · refine ⟨Err.unboundLocal, ?_⟩
      unfold simulation
      dsimp only
      rw [if_pos hG]
      rfl
    · refine ⟨Err.zeroDivision, ?_⟩
      unfold simulation
      dsimp only
      rw [if_neg hG, if_pos rfl]
      rfl
  · rfl

/-- C8: simulation_sequence returns the arithmetic mean of the per-trial
average increments, and with sequence_len = 1 it returns exactly the
avg_aware_inc_per_step of the single underlying run on the trial's deep copy. -/
theorem C8_sequence_mean (f : Nat → Rat) (k : Kernel) (mult enf : Rat) (obl : Bool)
    (G : Graph) (n seqLen i i' : Nat) (avgs : List Rat)
    (h : 1 ≤ seqLen)
    (hs : seqLoop f k mult enf obl G n seqLen i = (i', Except.ok avgs)) :
    avgs.length = seqLen ∧
    simulation_sequence f k mult enf obl G n seqLen i
      = (G, i', Except.ok (avgs.sum / (seqLen : Rat))) ∧
    (seqLen = 1 → ∃ Gx gl a,
      simulation f k mult enf obl (deepcopy G) n i = (Gx, i', Except.ok (gl, a)) ∧
      avgs = [a] ∧
      simulation_sequence f k mult enf obl G n seqLen i = (G, i', Except.ok a)) := by
  have hlen := seqLoop_ok_length f k mult enf obl G n seqLen i i' avgs hs
  have hne : avgs.isEmpty = false := by
    cases avgs with
    | nil => rw [List.length_nil] at hlen; omega
    | cons a t => rfl
  have hmain : simulation_sequence f k mult enf obl G n seqLen i
      = (G, i', Except.ok (avgs.sum / (seqLen : Rat))) := by
    unfold simulation_sequence
    dsimp only
    rw [hs]
    dsimp only
    rw [hne]
    simp only [Bool.false_eq_true, if_false]
    rw [hlen]
  refine ⟨hlen, hmain, ?_⟩
  intro h1
  subst h1
  rw [seqLoop_one f k mult enf obl G n i] at hs
  cases hr : (simulation f k mult enf obl (deepcopy G) n i).2.2 with
  | error e =>
      rw [hr] at hs
      dsimp only at hs
      simp at hs
  | ok p =>
      rw [hr] at hs
      dsimp only at hs
      rw [Prod.mk.injEq, Except.ok.injEq] at hs
      obtain ⟨hi2, hl2⟩ := hs
      refine ⟨(simulation f k mult enf obl (deepcopy G) n i).1, p.1, p.2, ?_, hl2.symm, ?_⟩
      · have heta : simulation f k mult enf obl (deepcopy G) n i
            = ((simulation f k mult enf obl (deepcopy G) n i).1,
               (simulation f k mult enf obl (deepcopy G) n i).2.1,
               (simulation f k mult enf obl (deepcopy G) n i).2.2) := rfl
        rw [hr, hi2] at heta
        exact heta
      · rw [← hl2] at hmain
        rw [show ([p.2] : List Rat).sum / ((1 : Nat) : Rat) = p.2 by simp] at hmain
        exact hmain

/-- C6 counterexample: optimize_rs with an oversized seed request fails with
the ValueError only after nx.set_node_attributes has already reset the
caller's node states: node 0 of the one-node graph was aware before the call
and is unaware when the error surfaces. -/
theorem C6_cex_mutation_before_error :
    (optimize_rs fhalf samp0 Kernel.weights 10 1 false Gone 2 1 1 1 0).2.2
        = Except.error Err.valueError ∧
    (optimize_rs fhalf samp0 Kernel.weights 10 1 false Gone 2 1 1 1 0).1.stateOf 0
        = NState.unaware ∧
    Gone.stateOf 0 = NState.aware :=
  ⟨rfl, rfl, rfl⟩

/-- C6 amended: optimize_rs with number_of_nodes larger than the node
population and at least one iteration fails with the ValueError raised by
random.sample, but only after the first iteration has already reset every
node's state in the caller's original graph to unaware. -/
theorem C6_oversized_seed_request (f : Nat → Rat) (samp : Nat → List Nat) (k : Kernel)
    (mult enf : Rat) (obl : Bool) (G : Graph) (nn iters n sl i : Nat)
    (hk : G.nodes.length < nn) (hi : 1 ≤ iters) :
    optimize_rs f samp k mult enf obl G nn iters n sl i
      = (setAllStates G NState.unaware, i, Except.error Err.valueError) := by
  cases iters with
  | zero => omega
  | succ m =>
      unfold optimize_rs rsLoop
      dsimp only
      rw [if_pos hk]

/-- Witness for C6 at a concrete input. -/
theorem C6_witness :
    (Gone.nodes.length < 2 ∧ 1 ≤ 1) ∧
    optimize_rs fhalf samp0 Kernel.weights 10 1 false Gone 2 1 1 1 0
      = (setAllStates Gone NState.unaware, 0, Except.error Err.valueError) :=
  ⟨⟨by decide, by decide⟩,
   C6_oversized_seed_request fhalf samp0 Kernel.weights 10 1 false Gone 2 1 1 1 0
     (by decide) (by decide)⟩

/-- C7 counterexample: with number_of_iter = 1 and k = 1, when the single
evaluation scores 0 the strict comparison against the initial best keeps the
sentinel [0, [0]], so the returned seed set is [0] while the sampled seed set
was [1]. -/
theorem C7_cex_nonpositive_score :
    (optimize_rs fhalf samp1 Kernel.weights 10 1 false Gpair 1 1 1 1 0).2.2
      = Except.ok ((0 : Rat), [0]) ∧
    samp1 0 = [1] ∧
    ([0] : List Nat) ≠ samp1 0 := by
  refine ⟨?_, rfl, by decide⟩
  with_unfolding_all rfl

/-- C7 amended: with number_of_iter = 1 and k = 1, when the single
simulation_sequence evaluation is strictly positive, optimize_rs returns that
score paired with the sampled seed set of size 1; a score of at most 0 keeps
the initial sentinel (0, [0]) instead. -/
theorem C7_single_iteration (f : Nat → Rat) (samp : Nat → List Nat) (k : Kernel)
    (mult enf : Rat) (obl : Bool) (G : Graph) (n sl i : Nat) (G2 : Graph) (i2 : Nat) (c : Rat)
    (hk : 1 ≤ G.nodes.length)
    (hmark : markAware (setAllStates G NState.unaware) (samp 0) = (G2, none))
    (hlen : (samp 0).length = 1)
    (hseq : simulation_sequence f k mult enf obl G2 n sl i = (G2, i2, Except.ok c))
    (hpos : 0 < c) :
    optimize_rs f samp k mult enf obl G 1 1 n sl i = (G2, i2, Except.ok (c, samp 0)) ∧
    (samp 0).length = 1 := by
  refine ⟨?_, hlen⟩
  unfold optimize_rs rsLoop
  dsimp only
  rw [if_neg (by omega)]
  rw [hmark]
  dsimp only
  rw [hseq]
  dsimp only
  rw [if_pos hpos]
  rfl

/-- Witness for C7 at a concrete input with a strictly positive score. -/
theorem C7_witness :
    (1 ≤ GpairE.nodes.length ∧
     markAware (setAllStates GpairE NState.unaware) (samp0 0) = (Gtwo, none) ∧
     (samp0 0).length = 1 ∧
     simulation_sequence fhalf Kernel.weights 10 1 false Gtwo 1 1 0
        = (Gtwo, 1, Except.ok 1) ∧
     (0 : Rat) < 1) ∧
    (optimize_rs fhalf samp0 Kernel.weights 10 1 false GpairE 1 1 1 1 0
        = (Gtwo, 1, Except.ok (1, samp0 0)) ∧
     (samp0 0).length = 1) :=
  ⟨⟨by decide, by decide, by decide, by with_unfolding_all rfl, by norm_num⟩,
   C7_single_iteration fhalf samp0 Kernel.weights 10 1 false GpairE 1 1 0 Gtwo 1 1
     (by decide) (by decide) (by decide) (by with_unfolding_all rfl) (by norm_num)⟩

/-- Witness for C8 at a concrete input. -/
theorem C8_witness :
    (1 ≤ 1 ∧
     seqLoop fhalf Kernel.weights 10 1 false Gtwo 1 1 0 = (1, Except.ok [1])) ∧
    (([1] : List Rat).length = 1 ∧
     simulation_sequence fhalf Kernel.weights 10 1 false Gtwo 1 1 0
        = (Gtwo, 1, Except.ok (([1] : List Rat).sum / ((1 : Nat) : Rat))) ∧
     (1 = 1 → ∃ Gx gl a,
        simulation fhalf Kernel.weights 10 1 false (deepcopy Gtwo) 1 0
          = (Gx, 1, Except.ok (gl, a)) ∧
        ([1] : List Rat) = [a] ∧
        simulation_sequence fhalf Kernel.weights 10 1 false Gtwo 1 1 0
          = (Gtwo, 1, Except.ok a))) :=
  ⟨⟨by decide, by with_unfolding_all rfl⟩,
   C8_sequence_mean fhalf Kernel.weights 10 1 false Gtwo 1 1 0 1 [1] (by decide)
     (by with_unfolding_all rfl)⟩

end Difpy
